import Mathlib

/-!
A shallow embedding of the baresipy driver.

This file embeds the `baresipy` package (a Python driver for the external
`baresip` CLI program) in Lean 4 and proves properties of its output-line
classifier, call-state machine and command facade.

Conventions of the embedding:

* Python strings are Lean `String`s; the Python string operations used by the
  source (`in`, `split`, `strip`, `[:-1]`, indexing) are reimplemented below
  with Python semantics (`pyIn`, `pySplit`, `pyStrip`, `pyDropLast`,
  `pyIndex`).  Python list indexing raises `IndexError` when out of range, so
  fallible per-line processing lives in `Except String`.
* The mutable fields of the `BareSIP` object form the `BareSIP` structure;
  each method becomes a function `BareSIP → ... → BareSIP × List Effect`
  returning the updated state together with a trace of externally visible
  effects (lines written to the spawned process, log records, and invocations
  of the overridable `handle_*` hook methods, recorded as `.hook` markers).
  Real-time sleeps and file-system/audio I/O carry no protocol state and are
  either omitted or recorded as opaque effects (`.toneWave`, `.convertAudio`,
  `.closeProc`, `.killProc`).
* `pexpect`'s `readline` returns each line *including* its line terminator
  (typically `"\r\n"`); the reader loop decodes it and compares that raw
  string against the previously stored (stripped) line before processing.
-/

/-! ## Python string primitives -/

/-- The characters Python's `str.strip()` removes by default. -/
def pySpace (c : Char) : Bool :=
  c = ' ' || c = '\t' || c = '\n' || c = '\r' || c = '\x0b' || c = '\x0c'

/-- Python `s.strip()`: remove leading and trailing whitespace. -/
def pyStrip (s : String) : String :=
  ⟨((s.data.dropWhile pySpace).reverse.dropWhile pySpace).reverse⟩

/-- Prefix test over char lists: `isPref pre l` is true when `pre` is a prefix of `l`. -/
def isPref : List Char → List Char → Bool
  | [], _ => true
  | _ :: _, [] => false
  | a :: as, b :: bs => a = b && isPref as bs

/-- Substring test: `containsSub hay needle` is true when `needle` occurs as a contiguous sublist of `hay`. -/
def containsSub (hay needle : List Char) : Bool :=
  isPref needle hay ||
    match hay with
    | [] => false
    | _ :: t => containsSub t needle

/-- Python `needle in hay` for strings. -/
def pyIn (needle hay : String) : Bool :=
  containsSub hay.data needle.data

/-- Fueled worker for Python `str.split(sep)` with a non-empty separator:
`acc` holds the (reversed) characters of the part being accumulated. -/
def splitGo (sep : List Char) : Nat → List Char → List Char → List (List Char)
  | _, acc, [] => [acc.reverse]
  | 0, acc, s => [acc.reverse ++ s]
  | fuel + 1, acc, c :: rest =>
    if isPref sep (c :: rest) then
      acc.reverse :: splitGo sep fuel [] (List.drop sep.length (c :: rest))
    else
      splitGo sep fuel (c :: acc) rest

/-- Python `s.split(sep)` for a non-empty separator `sep`. -/
def pySplit (s sep : String) : List String :=
  (splitGo sep.data s.data.length [] s.data).map String.mk

/-- Python list indexing `l[i]`, raising `IndexError` when out of range. -/
def pyIndex (l : List String) (i : Nat) : Except String String :=
  match l.get? i with
  | some v => .ok v
  | none => .error "IndexError"

/-- Python `s[:-1]`: drop the last character (identity on `""`). -/
def pyDropLast (s : String) : String :=
  ⟨s.data.dropLast⟩

/-- Numeric value of a list of decimal digit characters. -/
def natOfDigits (l : List Char) : Nat :=
  l.foldl (fun n c => n * 10 + (c.toNat - 48)) 0

/-- Drop `pre` from the front of `s`, or fail. -/
def dropPref : List Char → List Char → Option (List Char)
  | [], s => some s
  | _ :: _, [] => none
  | a :: as, b :: bs => if a = b then dropPref as bs else none

/-- Try to match the regex `received DTMF: '(.)' \(duration=(\d+)\)` at the
head of `s`, returning the captured character and duration. -/
def dtmfAt (s : List Char) : Option (Char × Nat) :=
  match dropPref "received DTMF: '".data s with
  | none => none
  | some r1 =>
    match r1 with
    | [] => none
    | c :: r2 =>
      if c = '\n' then none
      else
        match dropPref "' (duration=".data r2 with
        | none => none
        | some r3 =>
          let ds := r3.takeWhile Char.isDigit
          let r4 := r3.dropWhile Char.isDigit
          if ds.isEmpty then none
          else
            match r4 with
            | ')' :: _ => some (c, natOfDigits ds)
            | _ => none

/-- Python `re.search` for the DTMF regex: leftmost match anywhere in the string. -/
def dtmfSearch : List Char → Option (Char × Nat)
  | [] => none
  | c :: t =>
    match dtmfAt (c :: t) with
    | some r => some r
    | none => dtmfSearch t

/-! ## Data model -/

/-- Enumeration `baresipy.constants.CallStatus` (the `UKNOWN` typo is the source's). -/
inductive CallStatus
  | NONE
  | INCOMING
  | OUTGOING
  | RINGING
  | ESTABLISHED
  | ON_HOLD
  | DISCONNECTED
  | UKNOWN
deriving DecidableEq, Repr

/-- The `Identity` dataclass: configuration for a SIP account. -/
structure Identity where
  user : String
  password : String
  gateway : String
  flags : List String
  port : Nat := 5060
deriving DecidableEq, Repr

/-- Python `";".join(l)`. -/
def joinSemi : List String → String
  | [] => ""
  | [x] => x
  | x :: y :: xs => x ++ ";" ++ joinSemi (y :: xs)

/-- The `Identity.sip` property: the identity as a `sip:` address string with
flags.  The source appends `auth_pass=<password>` to a `copy.copy` of
`self.flags`, so `self.flags` is not modified. -/
def Identity.sip (i : Identity) : String :=
  "sip:" ++ i.user ++ "@" ++ i.gateway ++ ":" ++ toString i.port ++ ";" ++
    joinSemi (i.flags ++ ["auth_pass=" ++ i.password])

/-- One evaluation of the `sip` property viewed as a (state, value) pair: the
returned `Identity` is the object after the computation.  Because the source
copies `flags` before appending, the object is returned unchanged. -/
def Identity.sipRun (i : Identity) : String × Identity :=
  (i.sip, i)

/-- The overridable `handle_*` hook methods a consumer may implement. -/
inductive Hook
  | ready
  | loginSuccess
  | loginFailure
  | incomingCall (number : String)
  | callRejected (number : String)
  | callRinging (error : Bool)
  | callStart (error : Bool)
  | callEstablished
  | callEnded (reason : String)
  | callStatusChange (previous next : CallStatus)
  | micMuted
  | micUnmuted
  | callTimestamp (timestr : String)
  | dtmfReceived (char : Char) (duration : Nat)
  | error (msg : String)
deriving DecidableEq, Repr

/-- Externally visible effects of a method call. -/
inductive Effect
  | sendline (cmd : String)
  | hook (h : Hook)
  | logInfo (msg : String)
  | logWarning (msg : String)
  | logError (msg : String)
  | logDebug (msg : String)
  | toneWave (number : Nat) (path : String)
  | convertAudio (path : String)
  | closeProc
  | killProc
deriving DecidableEq, Repr

/-- The commands written to the spawned process's input, in order. -/
def sendsOf (l : List Effect) : List String :=
  l.filterMap fun e =>
    match e with
    | .sendline c => some c
    | _ => none

/-- The hook invocations in a trace, in order. -/
def hooksOf (l : List Effect) : List Hook :=
  l.filterMap fun e =>
    match e with
    | .hook h => some h
    | _ => none

/-- The mutable fields of a `BareSIP` object that the claims are about. -/
structure BareSIP where
  identity : Identity
  running : Bool
  ready : Bool
  mic_muted : Bool
  abort : Bool
  current_call : Option String
  call_status : CallStatus
  previous_call_status : CallStatus
  prev_output : String
  ts : Option String
deriving DecidableEq, Repr

/-- Python truthiness of `self.current_call`: `None` and `""` are falsy. -/
def truthy : Option String → Bool
  | none => false
  | some s => s ≠ ""

/-- State at entry to the reader loop: fields as initialized by `__init__`
(`running` is set to `True` on the first line of `run`). -/
def initState (i : Identity) : BareSIP :=
  { identity := i
    running := true
    ready := false
    mic_muted := false
    abort := false
    current_call := none
    call_status := .NONE
    previous_call_status := .NONE
    prev_output := ""
    ts := none }

/-- The `call_established` property. -/
def call_established (σ : BareSIP) : Bool :=
  σ.call_status = CallStatus.ESTABLISHED

/-- Printable name of a status, as used in the transition debug log. -/
def statusName : CallStatus → String
  | .NONE => "NONE"
  | .INCOMING => "INCOMING"
  | .OUTGOING => "OUTGOING"
  | .RINGING => "RINGING"
  | .ESTABLISHED => "ESTABLISHED"
  | .ON_HOLD => "ON_HOLD"
  | .DISCONNECTED => "DISCONNECTED"
  | .UKNOWN => "UKNOWN"

/-! ## Command facade and hook handlers -/

/-- Source `do_command`: gated on `ready`; otherwise the command is dropped with a
warning and an error log. -/
def do_command (σ : BareSIP) (action : String) : BareSIP × List Effect :=
  if σ.ready then (σ, [.sendline action])
  else (σ, [.logWarning (action ++ " not executed!"), .logError "NOT READY! please wait"])

/-- Source `create_user_agent`: writes `/uanew <sip>` directly (not via `do_command`,
so it is not gated on `ready`). -/
def create_user_agent (σ : BareSIP) : BareSIP × List Effect :=
  (σ, [.logInfo ("Adding account to baresip: " ++ σ.identity.sip),
       .sendline ("/uanew " ++ σ.identity.sip)])

/-- Source `call(number)`. -/
def call (σ : BareSIP) (number : String) : BareSIP × List Effect :=
  (σ, .logInfo ("Dialing: " ++ number) :: (do_command σ ("/dial " ++ number)).2)

/-- Source `hang`: requires a (truthy) `current_call`; clears it and sets the status
to `NONE` directly (without going through `_handle_call_status`). -/
def hang (σ : BareSIP) : BareSIP × List Effect :=
  if truthy σ.current_call then
    ({ σ with current_call := none, call_status := .NONE },
      .logInfo ("Hanging: " ++ σ.current_call.getD "") :: (do_command σ "/hangup").2)
  else (σ, [.logError "No active call to hang"])

/-- Source `hold`. -/
def hold (σ : BareSIP) : BareSIP × List Effect :=
  if truthy σ.current_call then
    (σ, .logInfo ("Holding: " ++ σ.current_call.getD "") :: (do_command σ "/hold").2)
  else (σ, [.logError "No active call to hold"])

/-- Source `resume`. -/
def resume (σ : BareSIP) : BareSIP × List Effect :=
  if truthy σ.current_call then
    (σ, .logInfo ("Resuming: " ++ σ.current_call.getD "") :: (do_command σ "/resume").2)
  else (σ, [.logError "No active call to resume"])

/-- Source `mute_mic`: reads `mic_muted` but never writes it (the write happens in
the reader loop when the program confirms with a `call muted` line). -/
def mute_mic (σ : BareSIP) : BareSIP × List Effect :=
  if !call_established σ then
    (σ, [.logError "Cannot mute microphone while not in a call"])
  else if !σ.mic_muted then
    (σ, .logInfo "Muting mic" :: (do_command σ "/mute").2)
  else (σ, [.logInfo "Mic already muted"])

/-- Source `unmute_mic`. -/
def unmute_mic (σ : BareSIP) : BareSIP × List Effect :=
  if !call_established σ then
    (σ, [.logError "Cannot unmute microphone while not in a call"])
  else if σ.mic_muted then
    (σ, .logInfo "Unmuting mic" :: (do_command σ "/mute").2)
  else (σ, [.logInfo "Mic already unmuted"])

/-- Source `_handle_call_status`: records the previous status, updates the current
one and fires the `handle_call_status_change` hook (a no-op by default). -/
def handle_call_status (σ : BareSIP) (status : CallStatus) : BareSIP × List Effect :=
  ({ σ with previous_call_status := σ.call_status, call_status := status },
    [.logDebug ("Call status transition, " ++ statusName σ.call_status ++ " to " ++
        statusName status),
     .hook (.callStatusChange σ.call_status status)])

/-- Source `accept_call`: sends `/accept` and then forces the status to
`ESTABLISHED` from the facade side. -/
def accept_call (σ : BareSIP) : BareSIP × List Effect :=
  let e1 := (do_command σ "/accept").2
  let r2 := handle_call_status σ .ESTABLISHED
  (r2.1, e1 ++ r2.2)

/-- Source `list_calls`. -/
def list_calls (σ : BareSIP) : BareSIP × List Effect :=
  do_command σ "/listcalls"

/-- Source `check_call_status`: sends `/callstat` and returns `call_status` after a
short sleep (the returned value and the sleep are not modeled). -/
def check_call_status (σ : BareSIP) : BareSIP × List Effect :=
  do_command σ "/callstat"

/-- Source `quit`: hangs up an active call while still running, asks the program to
exit (direct write, not gated), resets the session state and kills the
process.  Restoration of the configuration file is file I/O and not
modeled. -/
def quit (σ : BareSIP) : BareSIP × List Effect :=
  if σ.running then
    if truthy σ.current_call then
      let r1 := hang σ
      ({ r1.1 with
          running := false
          current_call := none
          call_status := .NONE
          abort := true },
        .logInfo "Exiting" :: r1.2 ++ [.sendline "/quit", .closeProc, .killProc])
    else
      ({ σ with
          running := false
          current_call := none
          call_status := .NONE
          abort := true },
        [.logInfo "Exiting", .sendline "/quit", .closeProc, .killProc])
  else
    ({ σ with
        running := false
        current_call := none
        call_status := .NONE
        abort := true },
      [.logInfo "Exiting", .closeProc, .killProc])

/-- Source `convert_audio` writes the resampled audio to a fixed temporary path; the
conversion itself and the returned duration are external audio I/O and only
the output path matters to the protocol. -/
def convert_audio (_input_file : String) : String :=
  "/tmp/pybaresip.wav"

/-- Source `send_audio`: requires an established call; switches the program's audio
source to the converted file and then back to the live device.  The sleep for
the playback duration is not modeled. -/
def send_audio (σ : BareSIP) (wav_file : String) : BareSIP × List Effect :=
  if !call_established σ then
    (σ, [.logError "Can't send audio without an active call!"])
  else
    let outfile := convert_audio wav_file
    let r1 := do_command σ ("/ausrc aufile," ++ outfile)
    let r2 := do_command r1.1 "/ausrc alsa,default"
    (r2.1, .convertAudio wav_file :: .logInfo "transmitting audio" :: (r1.2 ++ r2.2))

/-- Source `send_dtmf(number)`: every digit of the decimal representation must have
value at most 8 (`int(n) in range(0, 9)`); otherwise the input is rejected
with a logged error before anything is sent.  `tempfile.gettempdir()` is
modeled as `/tmp`. -/
def send_dtmf (σ : BareSIP) (number : Nat) : BareSIP × List Effect :=
  let s_number := toString number
  if s_number.data.all (fun c => decide (c.toNat - 48 < 9)) then
    let dtmf := "/tmp/" ++ s_number ++ ".wav"
    let r := send_audio σ dtmf
    (r.1, .logInfo ("Sending DTMF tones for " ++ s_number) ::
      .toneWave number dtmf :: r.2)
  else (σ, [.logError "Invalid DTMF tone"])

/-- Source `handle_incoming_call` (default implementation): rejects the call with the
command `b` in both branches.  The leading `.hook` marker records the
(overridable) hook dispatch itself. -/
def handle_incoming_call (σ : BareSIP) (number : String) : BareSIP × List Effect :=
  (σ, .hook (.incomingCall number) :: .logInfo ("Incoming call: " ++ number) ::
    (if call_established σ then
      .logInfo "already in a call, rejecting" :: (do_command σ "b").2
    else
      .logInfo "default behaviour, rejecting call" :: (do_command σ "b").2))

/-- Source `handle_call_rejected`. -/
def handle_call_rejected (σ : BareSIP) (number : String) : BareSIP × List Effect :=
  (σ, [.hook (.callRejected number), .logInfo ("Rejected incoming call: " ++ number)])

/-- Source `handle_call_timestamp`. -/
def handle_call_timestamp (σ : BareSIP) (timestr : String) : BareSIP × List Effect :=
  (σ, [.hook (.callTimestamp timestr), .logInfo ("Call time: " ++ timestr)])

/-- Source `_handle_call_start` together with the `handle_call_start` hook: the error
flag tells whether `current_call` was unexpectedly unset. -/
def handle_call_start (σ : BareSIP) : BareSIP × List Effect :=
  if truthy σ.current_call then
    (σ, [.logInfo ("Calling: " ++ σ.current_call.getD ""), .hook (.callStart false)])
  else
    (σ, [.logError "In call startup, but self.current_call is None",
         .hook (.callStart true)])

/-- Source `_handle_call_ringing` together with the `handle_call_ringing` hook. -/
def handle_call_ringing (σ : BareSIP) : BareSIP × List Effect :=
  if truthy σ.current_call then
    (σ, [.logInfo ("Ringing: " ++ σ.current_call.getD ""), .hook (.callRinging false)])
  else
    (σ, [.logError "In call ringing, but self.current_call is None",
         .hook (.callRinging true)])

/-- Source `handle_call_established`. -/
def handle_call_established (σ : BareSIP) : BareSIP × List Effect :=
  (σ, [.hook .callEstablished, .logInfo "Call established"])

/-- Source `handle_call_ended`. -/
def handle_call_ended (σ : BareSIP) (reason : String) : BareSIP × List Effect :=
  (σ, [.hook (.callEnded reason), .logInfo "Call ended", .logDebug ("Reason: " ++ reason)])

/-- Source `_handle_no_accounts`: triggers automatic account creation. -/
def handle_no_accounts (σ : BareSIP) : BareSIP × List Effect :=
  let r := create_user_agent σ
  (r.1, .logDebug "No accounts in baresip, creating one" :: r.2)

/-- Source `handle_login_success`. -/
def handle_login_success (σ : BareSIP) : BareSIP × List Effect :=
  (σ, [.hook .loginSuccess, .logInfo "Logged in!"])

/-- Source `handle_login_failure`: fatal, triggers `quit`. -/
def handle_login_failure (σ : BareSIP) : BareSIP × List Effect :=
  let r := quit σ
  (r.1, .hook .loginFailure :: .logError "Log in failed!" :: r.2)

/-- Source `handle_ready`: sets the `ready` flag. -/
def handle_ready (σ : BareSIP) : BareSIP × List Effect :=
  ({ σ with ready := true }, [.hook .ready, .logInfo "Ready for instructions"])

/-- Source `handle_mic_muted`. -/
def handle_mic_muted (σ : BareSIP) : BareSIP × List Effect :=
  (σ, [.hook .micMuted, .logInfo "Microphone muted"])

/-- Source `handle_mic_unmuted`. -/
def handle_mic_unmuted (σ : BareSIP) : BareSIP × List Effect :=
  (σ, [.hook .micUnmuted, .logInfo "Microphone unmuted"])

/-- Source `handle_audio_stream_failure`: hangs up the current call. -/
def handle_audio_stream_failure (σ : BareSIP) : BareSIP × List Effect :=
  let r := hang σ
  (r.1, .logDebug "Aborting call, maybe we reached voicemail?" :: r.2)

/-- Source `handle_dtmf_received`. -/
def handle_dtmf_received (σ : BareSIP) (char : Char) (duration : Nat) :
    BareSIP × List Effect :=
  (σ, [.hook (.dtmfReceived char duration),
       .logInfo ("Received DTMF symbol '" ++ String.singleton char ++
         "' duration=" ++ toString duration)])

/-- Source `handle_error`: logs the error; one exact error message additionally
triggers `handle_audio_stream_failure`. -/
def handle_error (σ : BareSIP) (err : String) : BareSIP × List Effect :=
  if err = "failed to set audio-source (No such device)" then
    let r := handle_audio_stream_failure σ
    (r.1, .hook (.error err) :: .logError err :: r.2)
  else (σ, [.hook (.error err), .logError err])

/-! ## Output classifier -/

/-- The typed result of classifying one (stripped) output line: one
constructor per branch of the reader loop's `if`/`elif` chain, carrying the
payload the branch extracts. -/
inductive BEvent
  | ready
  | noAccounts
  | loginSuccess
  | loginFailure (line : String)
  | incomingCall (num : String)
  | callRejected (num : String)
  | ringing
  | connecting (n : String)
  | established
  | holdLine (n : String)
  | terminated (duration : String)
  | muted
  | unmuted
  | sessionClosed (reason : String)
  | noActiveCalls
  | debugStatus (status : String)
  | activeCallLine (t : Option String)
  | audioSourceFailure
  | processTerminated
  | dtmfLine (m : Option (Char × Nat))
  | unrecognized
deriving DecidableEq, Repr

/-- Classify one stripped line `out`, given the previous non-duplicate line
`prev` (for the lookback rule) and the tracked call `cc` (read by the
lookback rule's condition).  Branches are in the source's order; payload
extraction uses Python indexing and can raise (`Except.error`), exactly where
the source can raise an uncaught `IndexError`/`TypeError`. -/
def classify (prev : String) (cc : Option String) (out : String) :
    Except String BEvent :=
  if pyIn "baresip is ready." out then .ok .ready
  else if pyIn "account: No SIP accounts found" out then .ok .noAccounts
  else if pyIn "All 1 useragent registered successfully!" out then .ok .loginSuccess
  else if pyIn "ua: SIP register failed:" out || pyIn "401 Unauthorized" out ||
      pyIn "Register: Destination address required" out ||
      pyIn "Register: Connection timed out" out then .ok (.loginFailure out)
  else if pyIn "Incoming call from: " out then do
    let a ← pyIndex (pySplit out "Incoming call from: ") 1
    let b ← pyIndex (pySplit a " - (press 'a' to accept)") 0
    .ok (.incomingCall (pyStrip b))
  else if pyIn "call: rejecting incoming call from " out then do
    let a ← pyIndex (pySplit out "rejecting incoming call from ") 1
    let b ← pyIndex (pySplit a " ") 0
    .ok (.callRejected (pyStrip b))
  else if pyIn "call: SIP Progress: 180 Ringing" out then .ok .ringing
  else if pyIn "call: connecting to " out then do
    let a ← pyIndex (pySplit out "call: connecting to '") 1
    let b ← pyIndex (pySplit a "'") 0
    .ok (.connecting b)
  else if pyIn "Call established:" out then .ok .established
  else if pyIn "call: hold " out then do
    let a ← pyIndex (pySplit out "call: hold ") 1
    .ok (.holdLine a)
  else if pyIn "Call with " out && pyIn "terminated (duration: " out then do
    let a ← pyIndex (pySplit out "terminated (duration: ") 1
    .ok (.terminated (pyDropLast a))
  else if pyIn "call muted" out then .ok .muted
  else if pyIn "call un-muted" out then .ok .unmuted
  else if pyIn "session closed:" out then do
    let a ← pyIndex (pySplit out "session closed:") 1
    .ok (.sessionClosed (pyStrip a))
  else if pyIn "(no active calls)" out then .ok .noActiveCalls
  else if pyIn "===== Call debug " out then do
    let a ← pyIndex (pySplit out "(") 1
    let b ← pyIndex (pySplit a ")") 0
    .ok (.debugStatus b)
  else if pyIn "--- List of active calls (1): ---" prev then
    if pyIn "ESTABLISHED" out then
      match cc with
      | none => .error "TypeError"
      | some c =>
        if pyIn c out then do
          let a ← pyIndex (pySplit out "ESTABLISHED") 0
          let b ← pyIndex (pySplit a "[line 1]") 1
          .ok (.activeCallLine (some (pyStrip b)))
        else .ok (.activeCallLine none)
    else .ok (.activeCallLine none)
  else if pyIn "failed to set audio-source (No such device)" out then
    .ok .audioSourceFailure
  else if pyIn "terminated by signal" out || pyIn "ua: stop all" out then
    .ok .processTerminated
  else if pyIn "received DTMF:" out then .ok (.dtmfLine (dtmfSearch out.data))
  else .ok .unrecognized

/-! ## Call-state machine: applying an event -/

/-- Apply one classified event to the session state, yielding the new state
and the effect trace of the corresponding branch body. -/
def applyEvent (σ : BareSIP) (e : BEvent) : BareSIP × List Effect :=
  match e with
  | .ready => handle_ready σ
  | .noAccounts => handle_no_accounts σ
  | .loginSuccess =>
    let r := handle_login_success { σ with ready := true }
    (r.1, r.2)
  | .loginFailure line =>
    let r1 := handle_error σ line
    let r2 := handle_login_failure r1.1
    (r2.1, r1.2 ++ r2.2)
  | .incomingCall num =>
    let σ1 := { σ with current_call := some num }
    let r2 := handle_call_status σ1 .INCOMING
    let r3 := handle_incoming_call r2.1 num
    (r3.1, r2.2 ++ r3.2)
  | .callRejected num => handle_call_rejected σ num
  | .ringing =>
    let r1 := handle_call_ringing σ
    let r2 := handle_call_status r1.1 .RINGING
    (r2.1, r1.2 ++ r2.2)
  | .connecting n =>
    let σ1 := { σ with current_call := some n }
    let r2 := handle_call_start σ1
    let r3 := handle_call_status r2.1 .OUTGOING
    (r3.1, r2.2 ++ r3.2)
  | .established =>
    let r1 := handle_call_status σ .ESTABLISHED
    let r2 := handle_call_established r1.1
    (r2.1, r1.2 ++ r2.2)
  | .holdLine _ => handle_call_status σ .ON_HOLD
  | .terminated duration =>
    let r1 := handle_call_status σ .DISCONNECTED
    let r2 := handle_call_timestamp r1.1 duration
    ({ r2.1 with mic_muted := false }, r1.2 ++ r2.2)
  | .muted =>
    let r := handle_mic_muted { σ with mic_muted := true }
    (r.1, r.2)
  | .unmuted =>
    let r := handle_mic_unmuted { σ with mic_muted := false }
    (r.1, r.2)
  | .sessionClosed reason =>
    let r1 := handle_call_status σ .DISCONNECTED
    let r2 := handle_call_ended r1.1 reason
    ({ r2.1 with mic_muted := false }, r1.2 ++ r2.2)
  | .noActiveCalls => handle_call_status σ .DISCONNECTED
  | .debugStatus status =>
    let r := handle_call_status σ .UKNOWN
    (r.1, .logWarning ("baresip produced status '" ++ status ++
        "', mapping to CallStatus.UNKNOWN") :: r.2)
  | .activeCallLine t =>
    match t with
    | none => (σ, [])
    | some t =>
      if σ.ts ≠ some t then
        let r := handle_call_timestamp { σ with ts := some t } t
        (r.1, r.2)
      else (σ, [])
  | .audioSourceFailure =>
    handle_error σ "failed to set audio-source (No such device)"
  | .processTerminated => ({ σ with running := false }, [])
  | .dtmfLine m =>
    match m with
    | some (c, d) => handle_dtmf_received σ c d
    | none => (σ, [])
  | .unrecognized => (σ, [])

/-! ## Reader loop -/

/-- Process one raw line as read by the reader loop (`raw` includes the line
terminator that `pexpect`'s `readline` returns).  The line is skipped when it
equals the stored previous line; otherwise it is stripped, classified and
applied, and the stripped line is stored as the new previous line.  Failures
of classification propagate (the source raises an uncaught exception before
performing any state mutation of the failing branch). -/
def processLineE (σ : BareSIP) (raw : String) : Except String (BareSIP × List Effect) :=
  if raw = σ.prev_output then .ok (σ, [])
  else
    let out := pyStrip raw
    match classify σ.prev_output σ.current_call out with
    | .error e => .error e
    | .ok ev =>
      let r := applyEvent σ ev
      .ok ({ r.1 with prev_output := out }, .logDebug ("baresip> " ++ out) :: r.2)

/-- One session step: either the reader loop processes a raw line, or a
facade operation is invoked. -/
inductive Act
  | line (raw : String)
  | call (number : String)
  | hang
  | hold
  | resume
  | mute_mic
  | unmute_mic
  | accept_call
  | list_calls
  | check_call_status
  | quit
  | send_dtmf (n : Nat)
  | send_audio (f : String)
  | do_command (s : String)
deriving DecidableEq, Repr

/-- State reached after one step.  A failing line leaves the state unchanged:
the uncaught exception kills the reader thread before any field of the
failing branch is written. -/
def stepState (σ : BareSIP) (a : Act) : BareSIP :=
  match a with
  | .line raw =>
    match processLineE σ raw with
    | .ok r => r.1
    | .error _ => σ
  | .call n => (call σ n).1
  | .hang => (hang σ).1
  | .hold => (hold σ).1
  | .resume => (resume σ).1
  | .mute_mic => (mute_mic σ).1
  | .unmute_mic => (unmute_mic σ).1
  | .accept_call => (accept_call σ).1
  | .list_calls => (list_calls σ).1
  | .check_call_status => (check_call_status σ).1
  | .quit => (quit σ).1
  | .send_dtmf n => (send_dtmf σ n).1
  | .send_audio f => (send_audio σ f).1
  | .do_command s => (do_command σ s).1

/-- State reached after a sequence of steps. -/
def runActs (σ : BareSIP) (acts : List Act) : BareSIP :=
  acts.foldl stepState σ

/-! ## Derived observations and helpers for the theorems -/

/-- The effect trace of processing one raw line (empty if processing fails:
nothing is dispatched past the point of the exception). -/
def lineEffects (σ : BareSIP) (raw : String) : List Effect :=
  match processLineE σ raw with
  | .ok r => r.2
  | .error _ => []

/-- Whether an `Except` computation succeeded. -/
def isOkE {ε α : Type} (e : Except ε α) : Bool :=
  match e with
  | .ok _ => true
  | .error _ => false

/-- A sample identity used in concrete scenarios. -/
def idEx : Identity :=
  { user := "u", password := "p", gateway := "g", flags := ["regint=0"] }

/-- A session that is ready and in an established call. -/
def estState : BareSIP :=
  { initState idEx with ready := true, call_status := CallStatus.ESTABLISHED }

/-- Split a character list at every occurrence of a separator character
(Python `s.split(";")` for the single-character separator). -/
def splitChar (sep : Char) : List Char → List (List Char)
  | [] => [[]]
  | c :: rest =>
    if c = sep then [] :: splitChar sep rest
    else
      match splitChar sep rest with
      | [] => [[c]]
      | p :: ps => (c :: p) :: ps

/-- Number of `;`-separated components of `s` that start with `auth_pass=`. -/
def authPassComponents (s : String) : Nat :=
  (splitChar ';' s.data).countP (fun comp => isPref "auth_pass=".data comp)

/-- The status set named by the specification's `current_call` invariant. -/
def specLiveStatus (s : CallStatus) : Bool :=
  match s with
  | .INCOMING | .OUTGOING | .RINGING | .ESTABLISHED | .ON_HOLD => true
  | _ => false

/-- The (weaker) invariant the code actually maintains: a tracked call implies
the status is not `NONE`. -/
def c1inv (σ : BareSIP) : Prop :=
  σ.current_call ≠ none → σ.call_status ≠ CallStatus.NONE

/-! ## State-shape lemmas for the facade operations -/

theorem hang_fst (σ : BareSIP) :
    (hang σ).1 = if truthy σ.current_call then
      { σ with current_call := none, call_status := CallStatus.NONE }
    else σ := by
  unfold hang
  split <;> rfl

theorem quit_fst (σ : BareSIP) :
    (quit σ).1 =
      { σ with
        running := false
        current_call := none
        call_status := CallStatus.NONE
        abort := true } := by
  unfold quit hang
  split <;> (try split) <;> rfl

theorem accept_call_fst (σ : BareSIP) :
    (accept_call σ).1 =
      { σ with
        previous_call_status := σ.call_status
        call_status := CallStatus.ESTABLISHED } := by
  rfl

theorem call_fst (σ : BareSIP) (n : String) : (call σ n).1 = σ := rfl

theorem hold_fst (σ : BareSIP) : (hold σ).1 = σ := by
  unfold hold; split <;> rfl

theorem resume_fst (σ : BareSIP) : (resume σ).1 = σ := by
  unfold resume; split <;> rfl

theorem mute_mic_fst (σ : BareSIP) : (mute_mic σ).1 = σ := by
  unfold mute_mic; split <;> (try split) <;> rfl

theorem unmute_mic_fst (σ : BareSIP) : (unmute_mic σ).1 = σ := by
  unfold unmute_mic; split <;> (try split) <;> rfl

theorem list_calls_fst (σ : BareSIP) : (list_calls σ).1 = σ := by
  unfold list_calls do_command; split <;> rfl

theorem check_call_status_fst (σ : BareSIP) : (check_call_status σ).1 = σ := by
  unfold check_call_status do_command; split <;> rfl

theorem do_command_fst (σ : BareSIP) (s : String) : (do_command σ s).1 = σ := by
  unfold do_command; split <;> rfl

theorem send_audio_fst (σ : BareSIP) (f : String) : (send_audio σ f).1 = σ := by
  cases h : call_established σ <;> cases h2 : σ.ready <;>
    simp [send_audio, do_command, h, h2]

theorem send_dtmf_fst (σ : BareSIP) (n : Nat) : (send_dtmf σ n).1 = σ := by
  cases h : (toString n).data.all (fun c => decide (c.toNat - 48 < 9)) <;>
    simp [send_dtmf, h, send_audio_fst]

theorem handle_incoming_call_fst (σ : BareSIP) (n : String) :
    (handle_incoming_call σ n).1 = σ := rfl

theorem handle_error_fst (σ : BareSIP) (err : String) :
    (handle_error σ err).1 =
      if err = "failed to set audio-source (No such device)" then (hang σ).1 else σ := by
  unfold handle_error handle_audio_stream_failure
  split <;> rfl

theorem c1inv_applyEvent (σ : BareSIP) (e : BEvent) (h : c1inv σ) :
    c1inv (applyEvent σ e).1 := by
  cases e <;>
    try simp_all [applyEvent, c1inv, handle_ready, handle_no_accounts, create_user_agent,
      handle_login_success, handle_error_fst, handle_login_failure, quit_fst,
      handle_call_status, handle_incoming_call, handle_call_rejected, handle_call_ringing,
      handle_call_start, handle_call_established, handle_call_ended,
      handle_call_timestamp, handle_mic_muted, handle_mic_unmuted, handle_dtmf_received,
      hang_fst, handle_audio_stream_failure]
  case activeCallLine t =>
    rcases t with _ | t
    · exact h
    · by_cases ht : σ.ts = some t <;>
        simp_all [applyEvent, c1inv, handle_call_timestamp]
  case audioSourceFailure =>
    by_cases ht : truthy σ.current_call = true <;>
      simp_all [applyEvent, c1inv, handle_error_fst, hang_fst, handle_audio_stream_failure]
  case dtmfLine m =>
    rcases m with _ | ⟨c, d⟩ <;> simp_all [applyEvent, c1inv, handle_dtmf_received]

/-- A line step either fails/dedupes (state unchanged) or applies the
classified event and stores the stripped line. -/
theorem stepState_line (σ : BareSIP) (raw : String) :
    stepState σ (Act.line raw) = σ ∨
    ∃ ev, classify σ.prev_output σ.current_call (pyStrip raw) = .ok ev ∧
      stepState σ (Act.line raw) =
        { (applyEvent σ ev).1 with prev_output := pyStrip raw } := by
  unfold stepState processLineE
  by_cases hd : raw = σ.prev_output
  · simp [hd]
  · simp only [hd, if_false, ite_false]
    cases hc : classify σ.prev_output σ.current_call (pyStrip raw) with
    | error e => simp [hc]
    | ok ev => simp [hc]

theorem c1inv_stepState (σ : BareSIP) (a : Act) (h : c1inv σ) :
    c1inv (stepState σ a) := by
  cases a with
  | line raw =>
    rcases stepState_line σ raw with h1 | ⟨ev, _, h2⟩
    · rw [h1]; exact h
    · rw [h2]
      have h3 := c1inv_applyEvent σ ev h
      simpa [c1inv] using h3
  | hang =>
    show c1inv (hang σ).1
    by_cases ht : truthy σ.current_call = true <;> simp_all [hang_fst, c1inv]
  | quit =>
    show c1inv (quit σ).1
    simp [quit_fst, c1inv]
  | accept_call =>
    show c1inv (accept_call σ).1
    simp [accept_call_fst, c1inv]
  | call n => show c1inv (call σ n).1; rw [call_fst]; exact h
  | hold => show c1inv (hold σ).1; rw [hold_fst]; exact h
  | resume => show c1inv (resume σ).1; rw [resume_fst]; exact h
  | mute_mic => show c1inv (mute_mic σ).1; rw [mute_mic_fst]; exact h
  | unmute_mic => show c1inv (unmute_mic σ).1; rw [unmute_mic_fst]; exact h
  | list_calls => show c1inv (list_calls σ).1; rw [list_calls_fst]; exact h
  | check_call_status =>
    show c1inv (check_call_status σ).1; rw [check_call_status_fst]; exact h
  | send_dtmf n => show c1inv (send_dtmf σ n).1; rw [send_dtmf_fst]; exact h
  | send_audio f => show c1inv (send_audio σ f).1; rw [send_audio_fst]; exact h
  | do_command s => show c1inv (do_command σ s).1; rw [do_command_fst]; exact h

theorem c1inv_runActs (σ : BareSIP) (acts : List Act) (h : c1inv σ) :
    c1inv (runActs σ acts) := by
  induction acts generalizing σ with
  | nil => exact h
  | cons a as ih => exact ih (stepState σ a) (c1inv_stepState σ a h)

/-- Whenever a step clears a tracked call, it simultaneously sets the status
to `NONE` (the clearing sites are `hang` and `quit`, reached directly or via
the login-failure and audio-failure handlers). -/
theorem clearing_applyEvent (σ : BareSIP) (e : BEvent)
    (h1 : σ.current_call ≠ none) (h2 : (applyEvent σ e).1.current_call = none) :
    (applyEvent σ e).1.call_status = CallStatus.NONE := by
  cases e <;>
    try simp_all [applyEvent, c1inv, handle_ready, handle_no_accounts, create_user_agent,
      handle_login_success, handle_error_fst, handle_login_failure, quit_fst,
      handle_call_status, handle_incoming_call, handle_call_rejected, handle_call_ringing,
      handle_call_start, handle_call_established, handle_call_ended,
      handle_call_timestamp, handle_mic_muted, handle_mic_unmuted, handle_dtmf_received,
      hang_fst, handle_audio_stream_failure]
  case ringing =>
    by_cases ht : truthy σ.current_call = true <;>
      simp_all [applyEvent, handle_call_ringing, handle_call_status]
  case connecting n =>
    by_cases ht : truthy (some n) = true <;>
      simp_all [applyEvent, handle_call_start, handle_call_status]
  case activeCallLine t =>
    rcases t with _ | t
    · simp_all [applyEvent]
    · by_cases ht : σ.ts = some t <;>
        simp_all [applyEvent, handle_call_timestamp]
  case audioSourceFailure =>
    by_cases ht : truthy σ.current_call = true <;>
      simp_all [applyEvent, handle_error_fst, hang_fst, handle_audio_stream_failure]
  case dtmfLine m =>
    rcases m with _ | ⟨c, d⟩ <;> simp_all [applyEvent, handle_dtmf_received]

theorem clearing_stepState (σ : BareSIP) (a : Act)
    (h1 : σ.current_call ≠ none) (h2 : (stepState σ a).current_call = none) :
    (stepState σ a).call_status = CallStatus.NONE := by
  cases a with
  | line raw =>
    rcases stepState_line σ raw with h3 | ⟨ev, _, h3⟩
    · rw [h3] at h2 ⊢; exact absurd h2 h1
    · rw [h3] at h2 ⊢
      exact clearing_applyEvent σ ev h1 (by simpa using h2)
  | hang =>
    revert h2
    show (hang σ).1.current_call = none → (hang σ).1.call_status = CallStatus.NONE
    by_cases ht : truthy σ.current_call = true <;> simp_all [hang_fst]
  | quit =>
    show (quit σ).1.call_status = CallStatus.NONE
    simp [quit_fst]
  | accept_call =>
    rw [show stepState σ Act.accept_call = (accept_call σ).1 from rfl,
      accept_call_fst] at h2
    exact absurd h2 h1
  | call n => rw [show stepState σ (Act.call n) = (call σ n).1 from rfl, call_fst] at h2 ⊢
              exact absurd h2 h1
  | hold => rw [show stepState σ Act.hold = (hold σ).1 from rfl, hold_fst] at h2 ⊢
            exact absurd h2 h1
  | resume => rw [show stepState σ Act.resume = (resume σ).1 from rfl, resume_fst] at h2 ⊢
              exact absurd h2 h1
  | mute_mic => rw [show stepState σ Act.mute_mic = (mute_mic σ).1 from rfl, mute_mic_fst] at h2 ⊢
                exact absurd h2 h1
  | unmute_mic => rw [show stepState σ Act.unmute_mic = (unmute_mic σ).1 from rfl, unmute_mic_fst] at h2 ⊢
                  exact absurd h2 h1
  | list_calls => rw [show stepState σ Act.list_calls = (list_calls σ).1 from rfl, list_calls_fst] at h2 ⊢
                  exact absurd h2 h1
  | check_call_status =>
    rw [show stepState σ Act.check_call_status = (check_call_status σ).1 from rfl,
      check_call_status_fst] at h2 ⊢
    exact absurd h2 h1
  | send_dtmf n => rw [show stepState σ (Act.send_dtmf n) = (send_dtmf σ n).1 from rfl, send_dtmf_fst] at h2 ⊢
                   exact absurd h2 h1
  | send_audio f => rw [show stepState σ (Act.send_audio f) = (send_audio σ f).1 from rfl, send_audio_fst] at h2 ⊢
                    exact absurd h2 h1
  | do_command s => rw [show stepState σ (Act.do_command s) = (do_command σ s).1 from rfl, do_command_fst] at h2 ⊢
                    exact absurd h2 h1

/-! ## Claim theorems -/

/-- C1 (counterexample): the claimed invariant — a non-null `current_call`
implies a status in `{INCOMING, OUTGOING, RINGING, ESTABLISHED, ON_HOLD}` —
fails on the code: after an incoming call followed by a termination line, the
status is `DISCONNECTED` but `current_call` is still set (the terminated
branch never clears it). -/
theorem c1_counterexample :
    (runActs (initState idEx)
        [Act.line "Incoming call from: 123 - (press 'a' to accept)\r\n",
         Act.line "Call with 123 terminated (duration: 00:00:01)\r\n"]).current_call =
      some "123" ∧
    (runActs (initState idEx)
        [Act.line "Incoming call from: 123 - (press 'a' to accept)\r\n",
         Act.line "Call with 123 terminated (duration: 00:00:01)\r\n"]).call_status =
      CallStatus.DISCONNECTED ∧
    specLiveStatus
      (runActs (initState idEx)
        [Act.line "Incoming call from: 123 - (press 'a' to accept)\r\n",
         Act.line "Call with 123 terminated (duration: 00:00:01)\r\n"]).call_status = false := by
  decide

/-- C1 (amended): at every state reachable by classified output lines and
facade calls, a non-null `current_call` implies the status is not `NONE`
(`DISCONNECTED` and `UKNOWN` must also be allowed); and whenever a step
clears a non-null `current_call`, that same step sets the status to `NONE`
(clearing happens only at explicit hang-up or shutdown). -/
theorem c1_tracked_call_never_status_none :
    (∀ (i : Identity) (acts : List Act), c1inv (runActs (initState i) acts)) ∧
    (∀ (σ : BareSIP) (a : Act), σ.current_call ≠ none →
      (stepState σ a).current_call = none →
      (stepState σ a).call_status = CallStatus.NONE) := by
  constructor
  · intro i acts
    apply c1inv_runActs
    intro hcc
    simp [initState] at hcc
  · intro σ a h1 h2
    exact clearing_stepState σ a h1 h2

/-- Witness for C1: concrete instances of both conjuncts. -/
theorem c1_tracked_call_never_status_none_witness :
    (stepState
      { initState idEx with current_call := some "5", call_status := CallStatus.INCOMING }
      Act.hang).call_status = CallStatus.NONE :=
  c1_tracked_call_never_status_none.2
    { initState idEx with current_call := some "5", call_status := CallStatus.INCOMING }
    Act.hang (by decide) (by decide)

/-- C2 (code bug): two consecutive identical raw lines are both dispatched.
`readline` returns the line with its terminator, but the stored previous line
is stripped before being saved, so the dedupe comparison `out !=
self._prev_output` compares a terminated line against a stripped one and
never fires for ordinary terminated lines: here the second identical raw
line `"baresip is ready.\r\n"` dispatches the ready hook again. -/
theorem c2_duplicate_raw_line_redispatches :
    hooksOf (lineEffects (initState idEx) "baresip is ready.\r\n") = [Hook.ready] ∧
    hooksOf (lineEffects
      (stepState (initState idEx) (Act.line "baresip is ready.\r\n"))
      "baresip is ready.\r\n") = [Hook.ready] := by
  decide

/-- C4: any command issued through `do_command` while `ready` is false is
dropped with a warning: no line is written to the process and the session
state is unchanged. -/
theorem c4_gated_command_dropped_when_not_ready (σ : BareSIP) (action : String)
    (h : σ.ready = false) :
    do_command σ action =
      (σ, [.logWarning (action ++ " not executed!"),
           .logError "NOT READY! please wait"]) ∧
    sendsOf (do_command σ action).2 = [] := by
  rw [do_command]
  simp [h, sendsOf]

/-- Witness for C4 at a concrete not-ready state and command. -/
theorem c4_gated_command_dropped_when_not_ready_witness :
    (initState idEx).ready = false ∧
    (do_command (initState idEx) "/dial 123" =
      ((initState idEx), [.logWarning ("/dial 123" ++ " not executed!"),
        .logError "NOT READY! please wait"]) ∧
     sendsOf (do_command (initState idEx) "/dial 123").2 = []) :=
  ⟨by decide, c4_gated_command_dropped_when_not_ready (initState idEx) "/dial 123" (by decide)⟩

/-- C7 (counterexample): the line `"baresip is ready."` sets `ready` to true
immediately (the claim asserts `ready` is still false after this line). -/
theorem c7_counterexample :
    (stepState (initState idEx) (Act.line "baresip is ready.\r\n")).ready = true := by
  decide

/-- C7 (amended): processing `["baresip is ready.", "account: No SIP accounts
found"]` from the initial state sets `ready` to true after the first line,
and the second line issues the account-creation command `/uanew <sip>`
(written directly, not through the gated path). -/
theorem c7_ready_then_uanew :
    (stepState (initState idEx) (Act.line "baresip is ready.\r\n")).ready = true ∧
    sendsOf (lineEffects
      (stepState (initState idEx) (Act.line "baresip is ready.\r\n"))
      "account: No SIP accounts found\r\n") = ["/uanew " ++ Identity.sip idEx] := by
  decide

/-- C8: `"Call established:"` followed later by `"Call with bob terminated
(duration: 00:01:23)"` (with an intervening `"call muted"` line so the
clearing of `mic_muted` is visible) drives the status `ESTABLISHED` then
`DISCONNECTED`, fires the status-change and call-established hooks on the
first line and then the status-change and timestamp hooks on the last, the
timestamp payload being the substring after `"terminated (duration: "` with
its last character removed, i.e. `"00:01:23"`, and clears `mic_muted`. -/
theorem c8_established_then_terminated :
    (runActs (initState idEx) [Act.line "Call established:\r\n"]).call_status =
      CallStatus.ESTABLISHED ∧
    hooksOf (lineEffects (initState idEx) "Call established:\r\n") =
      [Hook.callStatusChange CallStatus.NONE CallStatus.ESTABLISHED,
       Hook.callEstablished] ∧
    (runActs (initState idEx)
      [Act.line "Call established:\r\n", Act.line "call muted\r\n"]).mic_muted = true ∧
    hooksOf (lineEffects
      (runActs (initState idEx)
        [Act.line "Call established:\r\n", Act.line "call muted\r\n"])
      "Call with bob terminated (duration: 00:01:23)\r\n") =
      [Hook.callStatusChange CallStatus.ESTABLISHED CallStatus.DISCONNECTED,
       Hook.callTimestamp "00:01:23"] ∧
    (runActs (initState idEx)
      [Act.line "Call established:\r\n", Act.line "call muted\r\n",
       Act.line "Call with bob terminated (duration: 00:01:23)\r\n"]).call_status =
      CallStatus.DISCONNECTED ∧
    (runActs (initState idEx)
      [Act.line "Call established:\r\n", Act.line "call muted\r\n",
       Act.line "Call with bob terminated (duration: 00:01:23)\r\n"]).mic_muted = false ∧
    pyDropLast (List.getD
      (pySplit (pyStrip "Call with bob terminated (duration: 00:01:23)\r\n")
        "terminated (duration: ") 1 "") = "00:01:23" := by
  decide

/-- C9 (counterexample): `accept_call` — a facade operation — writes
`call_status` (from `NONE` to `ESTABLISHED`), so the fields are not mutated
exclusively by the reader loop. -/
theorem c9_counterexample :
    (accept_call (initState idEx)).1.call_status = CallStatus.ESTABLISHED ∧
    (initState idEx).call_status = CallStatus.NONE := by
  decide

/-- C9 (amended): facade operations never write `ready` or `mic_muted`; all
of them leave the whole state unchanged except `accept_call` (which forces
`call_status` to `ESTABLISHED`), `hang` (which clears `current_call` and sets
the status to `NONE` when a call is tracked) and `quit` (which clears
`current_call`, resets the status and stops the session). -/
theorem c9_facade_state_frame (σ : BareSIP) (number : String) (n : Nat) (f s : String) :
    (call σ number).1 = σ ∧ (hold σ).1 = σ ∧ (resume σ).1 = σ ∧
    (mute_mic σ).1 = σ ∧ (unmute_mic σ).1 = σ ∧ (list_calls σ).1 = σ ∧
    (check_call_status σ).1 = σ ∧ (send_dtmf σ n).1 = σ ∧ (send_audio σ f).1 = σ ∧
    (do_command σ s).1 = σ ∧
    (accept_call σ).1.ready = σ.ready ∧ (accept_call σ).1.mic_muted = σ.mic_muted ∧
    (accept_call σ).1.current_call = σ.current_call ∧
    (accept_call σ).1.call_status = CallStatus.ESTABLISHED ∧
    (hang σ).1.ready = σ.ready ∧ (hang σ).1.mic_muted = σ.mic_muted ∧
    (quit σ).1.ready = σ.ready ∧ (quit σ).1.mic_muted = σ.mic_muted ∧
    (hang σ).1 = (if truthy σ.current_call then
      { σ with current_call := none, call_status := CallStatus.NONE } else σ) ∧
    (quit σ).1 =
      { σ with
        running := false
        current_call := none
        call_status := CallStatus.NONE
        abort := true } := by
  refine ⟨call_fst σ number, hold_fst σ, resume_fst σ, mute_mic_fst σ, unmute_mic_fst σ,
    list_calls_fst σ, check_call_status_fst σ, send_dtmf_fst σ n, send_audio_fst σ f,
    do_command_fst σ s, ?_, ?_, ?_, ?_, ?_, ?_, ?_, ?_, hang_fst σ, quit_fst σ⟩ <;>
    simp [accept_call_fst, hang_fst, quit_fst] <;> split <;> rfl

/-- C10: the default incoming-call handler performs the identical rejection
in both of its branches (already-established or not): it leaves the state
unchanged and its only write to the process is the single rejection command
`b` (sent through the gated path, hence only when `ready`); in particular it
never sends `/accept`, so under default hooks no incoming call is accepted. -/
theorem c10_default_incoming_rejects (σ : BareSIP) (number : String) :
    (handle_incoming_call σ number).1 = σ ∧
    sendsOf (handle_incoming_call σ number).2 =
      (if σ.ready then ["b"] else []) := by
  refine ⟨rfl, ?_⟩
  unfold handle_incoming_call do_command
  by_cases h1 : call_established σ <;> by_cases h2 : σ.ready = true <;>
    simp [h1, h2, sendsOf]

/-- C6: `send_dtmf` validates every digit of the decimal representation to be
in `0..8`: a valid number proceeds to tone generation and audio sending (the
two audio-source commands are written when the call is established and the
session ready), while a number containing the digit `9` is rejected with a
logged error and nothing is written to the process. -/
theorem c6_dtmf_digit_validation (σ : BareSIP) (n : Nat) :
    ((toString n).data.all (fun c => decide (c.toNat - 48 < 9)) = true →
      send_dtmf σ n =
        (σ, .logInfo ("Sending DTMF tones for " ++ toString n) ::
          .toneWave n ("/tmp/" ++ toString n ++ ".wav") ::
          (send_audio σ ("/tmp/" ++ toString n ++ ".wav")).2)) ∧
    ((toString n).data.all (fun c => decide (c.toNat - 48 < 9)) = true →
      σ.call_status = CallStatus.ESTABLISHED → σ.ready = true →
      sendsOf (send_dtmf σ n).2 =
        ["/ausrc aufile,/tmp/pybaresip.wav", "/ausrc alsa,default"]) ∧
    ('9' ∈ (toString n).data →
      send_dtmf σ n = (σ, [.logError "Invalid DTMF tone"]) ∧
      sendsOf (send_dtmf σ n).2 = []) := by
  refine ⟨?_, ?_, ?_⟩
  · intro h
    simp [send_dtmf, h, send_audio_fst]
  · intro h h1 h2
    simp [send_dtmf, h, send_audio, call_established, h1, do_command, h2, sendsOf,
      convert_audio]
  · intro h9
    have hall : ¬ ((toString n).data.all (fun c => decide (c.toNat - 48 < 9)) = true) := by
      intro hcon
      have h5 := List.all_eq_true.mp hcon '9' h9
      simp at h5
    constructor
    · simp [send_dtmf, hall]
    · simp [send_dtmf, hall, sendsOf]

/-- Witness for C6: `123` is accepted (and sent in an established, ready
session), `9` and `19` are rejected with no command written. -/
theorem c6_dtmf_digit_validation_witness :
    ((toString 123).data.all (fun c => decide (c.toNat - 48 < 9)) = true ∧
      estState.call_status = CallStatus.ESTABLISHED ∧ estState.ready = true ∧
      sendsOf (send_dtmf estState 123).2 =
        ["/ausrc aufile,/tmp/pybaresip.wav", "/ausrc alsa,default"]) ∧
    ('9' ∈ (toString 9).data ∧
      send_dtmf estState 9 = (estState, [.logError "Invalid DTMF tone"])) ∧
    ('9' ∈ (toString 19).data ∧ sendsOf (send_dtmf estState 19).2 = []) :=
  ⟨⟨by decide, by decide, by decide,
    (c6_dtmf_digit_validation estState 123).2.1 (by decide) (by decide) (by decide)⟩,
   ⟨by decide, ((c6_dtmf_digit_validation estState 9).2.2 (by decide)).1⟩,
   ⟨by decide, ((c6_dtmf_digit_validation estState 19).2.2 (by decide)).2⟩⟩

/-! ## Totality lemmas for the classifier -/

theorem splitGo_ne_nil (sep : List Char) (fuel : Nat) (acc s : List Char) :
    splitGo sep fuel acc s ≠ [] := by
  induction fuel generalizing acc s with
  | zero => cases s <;> simp [splitGo]
  | succ f ih =>
    cases s with
    | nil => simp [splitGo]
    | cons c rest =>
      rw [splitGo]
      split
      · simp
      · exact ih _ _

theorem splitGo_length_ge_two (sep : List Char) (hsep : sep ≠ []) :
    ∀ (fuel : Nat) (s acc : List Char), s.length ≤ fuel →
      containsSub s sep = true → 2 ≤ (splitGo sep fuel acc s).length := by
  intro fuel
  induction fuel with
  | zero =>
    intro s acc hlen hc
    have hs : s = [] := List.length_eq_zero.mp (Nat.le_zero.mp hlen)
    subst hs
    rcases sep with _ | ⟨a, as⟩
    · exact absurd rfl hsep
    · simp [containsSub, isPref] at hc
  | succ f ih =>
    intro s acc hlen hc
    cases s with
    | nil =>
      rcases sep with _ | ⟨a, as⟩
      · exact absurd rfl hsep
      · simp [containsSub, isPref] at hc
    | cons c rest =>
      rw [splitGo]
      split
      · have h1 := splitGo_ne_nil sep f [] (List.drop sep.length (c :: rest))
        have h2 : 0 < (splitGo sep f [] (List.drop sep.length (c :: rest))).length :=
          List.length_pos.mpr h1
        simp only [List.length_cons]
        omega
      · rename_i hpref
        rw [containsSub] at hc
        simp only [Bool.or_eq_true] at hc
        rcases hc with hc | hc
        · exact absurd hc hpref
        · have hlen' : rest.length ≤ f := by
            simp only [List.length_cons] at hlen
            omega
          exact ih rest (c :: acc) hlen' hc

theorem pySplit_ne_nil (s sep : String) : pySplit s sep ≠ [] := by
  unfold pySplit
  intro h
  exact splitGo_ne_nil sep.data s.data.length [] s.data (List.map_eq_nil_iff.mp h)

theorem pyIndex_zero_ok (l : List String) (h : l ≠ []) :
    ∃ v, pyIndex l 0 = Except.ok v := by
  cases l with
  | nil => exact absurd rfl h
  | cons a t => exact ⟨a, rfl⟩

theorem pyIndex_one_of_contains (s sep : String) (hsep : sep.data ≠ [])
    (h : pyIn sep s = true) : ∃ v, pyIndex (pySplit s sep) 1 = Except.ok v := by
  have h2 : 2 ≤ (pySplit s sep).length := by
    unfold pySplit
    rw [List.length_map]
    exact splitGo_length_ge_two sep.data hsep s.data.length s.data [] le_rfl h
  rcases hg : (pySplit s sep).get? 1 with _ | v
  · exfalso
    have h3 := List.get?_eq_none.mp hg
    omega
  · exact ⟨v, by unfold pyIndex; rw [hg]⟩

theorem exbind_ok {ε α β : Type} (x : Except ε α) (a : α) (h : x = .ok a)
    (f : α → Except ε β) : (x >>= f) = f a := by
  rw [h]
  rfl

theorem isPref_iff (p l : List Char) : isPref p l = true ↔ p <+: l := by
  induction p generalizing l with
  | nil => simp [isPref]
  | cons a as ih =>
    cases l with
    | nil => simp [isPref]
    | cons b bs =>
      rw [isPref]
      simp [Bool.and_eq_true, ih, List.cons_prefix_cons]

theorem containsSub_iff (hay needle : List Char) :
    containsSub hay needle = true ↔ needle <:+: hay := by
  induction hay with
  | nil => rw [containsSub]; simp [isPref_iff]
  | cons c t ih =>
    rw [containsSub]
    simp only [Bool.or_eq_true, isPref_iff, ih, List.infix_cons_iff]

theorem pyIn_trans {a b : String} (s : String) (hab : pyIn a b = true)
    (h : pyIn b s = true) : pyIn a s = true := by
  rw [pyIn, containsSub_iff] at hab h ⊢
  exact hab.trans h

theorem pyIndex_zero_eq (l : List String) (h : l ≠ []) :
    pyIndex l 0 = Except.ok (l.getD 0 "") := by
  cases l with
  | nil => exact absurd rfl h
  | cons a t => rfl

/-- Classification succeeds on every line that avoids the fallible payload
extractions: a connecting line must carry the quoted callee, a call-debug
line must carry a parenthesis, and the active-calls lookback rule needs a
set `current_call` and a `[line 1]` token before `ESTABLISHED`. -/
theorem classify_total (prev : String) (cc : Option String) (out : String)
    (h1 : pyIn "call: connecting to " out = true → pyIn "call: connecting to '" out = true)
    (h2 : pyIn "===== Call debug " out = true → pyIn "(" out = true)
    (h3 : pyIn "--- List of active calls (1): ---" prev = true →
      pyIn "ESTABLISHED" out = true →
      ∃ c, cc = some c ∧ (pyIn c out = true →
        pyIn "[line 1]" (List.getD (pySplit out "ESTABLISHED") 0 "") = true)) :
    ∃ e, classify prev cc out = Except.ok e := by
  unfold classify
  by_cases g1 : pyIn "baresip is ready." out = true
  · rw [if_pos g1]; exact ⟨_, rfl⟩
  rw [if_neg g1]
  by_cases g2 : pyIn "account: No SIP accounts found" out = true
  · rw [if_pos g2]; exact ⟨_, rfl⟩
  rw [if_neg g2]
  by_cases g3 : pyIn "All 1 useragent registered successfully!" out = true
  · rw [if_pos g3]; exact ⟨_, rfl⟩
  rw [if_neg g3]
  by_cases g4 : (pyIn "ua: SIP register failed:" out || pyIn "401 Unauthorized" out ||
      pyIn "Register: Destination address required" out ||
      pyIn "Register: Connection timed out" out) = true
  · rw [if_pos g4]; exact ⟨_, rfl⟩
  rw [if_neg g4]
  by_cases g5 : pyIn "Incoming call from: " out = true
  · rw [if_pos g5]
    obtain ⟨a, ha⟩ := pyIndex_one_of_contains out "Incoming call from: " (by decide) g5
    rw [exbind_ok _ _ ha]
    obtain ⟨b, hb⟩ := pyIndex_zero_ok _ (pySplit_ne_nil a " - (press 'a' to accept)")
    rw [exbind_ok _ _ hb]
    exact ⟨_, rfl⟩
  rw [if_neg g5]
  by_cases g6 : pyIn "call: rejecting incoming call from " out = true
  · rw [if_pos g6]
    have g6a : pyIn "rejecting incoming call from " out = true :=
      pyIn_trans out (by decide) g6
    obtain ⟨a, ha⟩ := pyIndex_one_of_contains out "rejecting incoming call from " (by decide) g6a
    rw [exbind_ok _ _ ha]
    obtain ⟨b, hb⟩ := pyIndex_zero_ok _ (pySplit_ne_nil a " ")
    rw [exbind_ok _ _ hb]
    exact ⟨_, rfl⟩
  rw [if_neg g6]
  by_cases g7 : pyIn "call: SIP Progress: 180 Ringing" out = true
  · rw [if_pos g7]; exact ⟨_, rfl⟩
  rw [if_neg g7]
  by_cases g8 : pyIn "call: connecting to " out = true
  · rw [if_pos g8]
    obtain ⟨a, ha⟩ := pyIndex_one_of_contains out "call: connecting to '" (by decide) (h1 g8)
    rw [exbind_ok _ _ ha]
    obtain ⟨b, hb⟩ := pyIndex_zero_ok _ (pySplit_ne_nil a "'")
    rw [exbind_ok _ _ hb]
    exact ⟨_, rfl⟩
  rw [if_neg g8]
  by_cases g9 : pyIn "Call established:" out = true
  · rw [if_pos g9]; exact ⟨_, rfl⟩
  rw [if_neg g9]
  by_cases g10 : pyIn "call: hold " out = true
  · rw [if_pos g10]
    obtain ⟨a, ha⟩ := pyIndex_one_of_contains out "call: hold " (by decide) g10
    rw [exbind_ok _ _ ha]
    exact ⟨_, rfl⟩
  rw [if_neg g10]
  by_cases g11 : (pyIn "Call with " out && pyIn "terminated (duration: " out) = true
  · rw [if_pos g11]
    obtain ⟨ga, gb⟩ := Bool.and_eq_true_iff.mp g11
    obtain ⟨a, ha⟩ := pyIndex_one_of_contains out "terminated (duration: " (by decide) gb
    rw [exbind_ok _ _ ha]
    exact ⟨_, rfl⟩
  rw [if_neg g11]
  by_cases g12 : pyIn "call muted" out = true
  · rw [if_pos g12]; exact ⟨_, rfl⟩
  rw [if_neg g12]
  by_cases g13 : pyIn "call un-muted" out = true
  · rw [if_pos g13]; exact ⟨_, rfl⟩
  rw [if_neg g13]
  by_cases g14 : pyIn "session closed:" out = true
  · rw [if_pos g14]
    obtain ⟨a, ha⟩ := pyIndex_one_of_contains out "session closed:" (by decide) g14
    rw [exbind_ok _ _ ha]
    exact ⟨_, rfl⟩
  rw [if_neg g14]
  by_cases g15 : pyIn "(no active calls)" out = true
  · rw [if_pos g15]; exact ⟨_, rfl⟩
  rw [if_neg g15]
  by_cases g16 : pyIn "===== Call debug " out = true
  · rw [if_pos g16]
    obtain ⟨a, ha⟩ := pyIndex_one_of_contains out "(" (by decide) (h2 g16)
    rw [exbind_ok _ _ ha]
    obtain ⟨b, hb⟩ := pyIndex_zero_ok _ (pySplit_ne_nil a ")")
    rw [exbind_ok _ _ hb]
    exact ⟨_, rfl⟩
  rw [if_neg g16]
  by_cases g17 : pyIn "--- List of active calls (1): ---" prev = true
  · rw [if_pos g17]
    by_cases g18 : pyIn "ESTABLISHED" out = true
    · rw [if_pos g18]
      obtain ⟨c, hcc, hli⟩ := h3 g17 g18
      subst hcc
      dsimp only
      by_cases g19 : pyIn c out = true
      · rw [if_pos g19]
        rw [exbind_ok _ _ (pyIndex_zero_eq _ (pySplit_ne_nil out "ESTABLISHED"))]
        obtain ⟨b, hb⟩ := pyIndex_one_of_contains _ "[line 1]" (by decide) (hli g19)
        rw [exbind_ok _ _ hb]
        exact ⟨_, rfl⟩
      · rw [if_neg g19]; exact ⟨_, rfl⟩
    · rw [if_neg g18]; exact ⟨_, rfl⟩
  rw [if_neg g17]
  by_cases g20 : pyIn "failed to set audio-source (No such device)" out = true
  · rw [if_pos g20]; exact ⟨_, rfl⟩
  rw [if_neg g20]
  by_cases g21 : (pyIn "terminated by signal" out || pyIn "ua: stop all" out) = true
  · rw [if_pos g21]; exact ⟨_, rfl⟩
  rw [if_neg g21]
  by_cases g22 : pyIn "received DTMF:" out = true
  · rw [if_pos g22]; exact ⟨_, rfl⟩
  rw [if_neg g22]
  exact ⟨_, rfl⟩

/-- C3 (counterexample): a line containing `call: connecting to ` without the
quoted form reaches the connecting branch (which splits on the quoted
marker) and per-line processing fails with an uncaught `IndexError` instead
of yielding an event. -/
theorem c3_counterexample :
    pyIn "call: connecting to " (pyStrip "call: connecting to somewhere\r\n") = true ∧
    isOkE (processLineE (initState idEx) "call: connecting to somewhere\r\n") = false := by
  decide

/-- C3 (amended): classification is total — the first matching rule fires and
yields exactly one event — for every line except the fallible shapes: a
connecting line without a quoted callee, a call-debug line without `(`, and
an active-calls lookback line with no tracked call or no `[line 1]` token;
on those the processing raises instead. -/
theorem c3_processing_total (σ : BareSIP) (raw : String)
    (h1 : pyIn "call: connecting to " (pyStrip raw) = true →
      pyIn "call: connecting to '" (pyStrip raw) = true)
    (h2 : pyIn "===== Call debug " (pyStrip raw) = true →
      pyIn "(" (pyStrip raw) = true)
    (h3 : pyIn "--- List of active calls (1): ---" σ.prev_output = true →
      pyIn "ESTABLISHED" (pyStrip raw) = true →
      ∃ c, σ.current_call = some c ∧ (pyIn c (pyStrip raw) = true →
        pyIn "[line 1]" (List.getD (pySplit (pyStrip raw) "ESTABLISHED") 0 "") = true)) :
    (∃ e, classify σ.prev_output σ.current_call (pyStrip raw) = Except.ok e) ∧
    (∃ r, processLineE σ raw = Except.ok r) := by
  have hc := classify_total σ.prev_output σ.current_call (pyStrip raw) h1 h2 h3
  refine ⟨hc, ?_⟩
  unfold processLineE
  by_cases hd : raw = σ.prev_output
  · rw [if_pos hd]; exact ⟨_, rfl⟩
  · rw [if_neg hd]
    dsimp only
    obtain ⟨e, he⟩ := hc
    rw [he]
    exact ⟨_, rfl⟩

/-- Witness for C3 on a concrete hold line. -/
theorem c3_processing_total_witness :
    isOkE (processLineE (initState idEx) "call: hold bob\r\n") = true := by
  obtain ⟨r, hr⟩ := (c3_processing_total (initState idEx) "call: hold bob\r\n"
    (by decide) (by decide) (fun hcon => absurd hcon (by decide))).2
  rw [hr]
  rfl

/-! ## Lemmas about the derived sip URI -/

theorem splitChar_no_sep (sep : Char) (a : List Char) (h : sep ∉ a) :
    splitChar sep a = [a] := by
  induction a with
  | nil => rfl
  | cons c t ih =>
    have h1 : ¬ (c = sep) := fun hh => h (hh ▸ List.mem_cons_self c t)
    have h2 : sep ∉ t := fun hh => h (List.mem_cons_of_mem c hh)
    rw [splitChar, if_neg h1, ih h2]

theorem splitChar_append (sep : Char) (a b : List Char) (h : sep ∉ a) :
    splitChar sep (a ++ sep :: b) = a :: splitChar sep b := by
  induction a with
  | nil => simp [splitChar]
  | cons c t ih =>
    have h1 : ¬ (c = sep) := fun hh => h (hh ▸ List.mem_cons_self c t)
    have h2 : sep ∉ t := fun hh => h (List.mem_cons_of_mem c hh)
    rw [List.cons_append, splitChar, if_neg h1, ih h2]

theorem splitChar_joinSemi (x : String) (l : List String)
    (h : ∀ s ∈ x :: l, ';' ∉ s.data) :
    splitChar ';' (joinSemi (x :: l)).data = (x :: l).map String.data := by
  induction l generalizing x with
  | nil =>
    simp only [joinSemi, List.map_cons, List.map_nil]
    rw [splitChar_no_sep ';' x.data (h x (by simp))]
  | cons y ys ih =>
    have hx : ';' ∉ x.data := h x (by simp)
    have hrest : ∀ s ∈ y :: ys, ';' ∉ s.data := fun s hs => h s (by simp [hs])
    have hdata : (x ++ ";" ++ joinSemi (y :: ys)).data =
        x.data ++ ';' :: (joinSemi (y :: ys)).data := by
      simp [String.data_append]
    simp only [joinSemi]
    rw [hdata, splitChar_append ';' _ _ hx, ih y hrest]
    simp

theorem sip_eq_joinSemi (i : Identity) :
    i.sip = joinSemi (("sip:" ++ i.user ++ "@" ++ i.gateway ++ ":" ++ toString i.port) ::
      (i.flags ++ ["auth_pass=" ++ i.password])) := by
  rcases hf : i.flags with _ | ⟨a, as⟩ <;> simp [Identity.sip, joinSemi, hf]

/-- C5 (counterexample): for an identity whose flags already contain an
`auth_pass=` entry, the derived URI contains two `auth_pass=` components, so
the "exactly one `auth_pass=` component for every Identity" claim fails (the
source only guarantees it does not *accumulate* entries across repeated
computations). -/
theorem c5_counterexample :
    authPassComponents (Identity.sip
      { user := "u", password := "p", gateway := "g", flags := ["auth_pass=x"] }) = 2 := by
  decide

/-- C5 (amended): recomputing the derived URI any number of times yields
byte-identical strings and never mutates `flags` (the source appends the
password flag to a copy); and for every identity whose user, gateway,
password and flags are `;`-free and whose flags carry no `auth_pass=` entry
of their own, the derived URI contains exactly one `auth_pass=` component. -/
theorem c5_sip_single_auth_pass (i : Identity)
    (hu : ';' ∉ i.user.data) (hg : ';' ∉ i.gateway.data) (hpw : ';' ∉ i.password.data)
    (hport : ';' ∉ (toString i.port).data)
    (hf1 : ∀ f ∈ i.flags, ';' ∉ f.data)
    (hf2 : ∀ f ∈ i.flags, isPref "auth_pass=".data f.data = false) :
    i.sipRun = (i.sip, i) ∧
    (i.sipRun.2).sipRun.1 = i.sipRun.1 ∧
    i.sipRun.2.flags = i.flags ∧
    authPassComponents i.sip = 1 := by
  refine ⟨rfl, rfl, rfl, ?_⟩
  rw [authPassComponents, sip_eq_joinSemi]
  rw [splitChar_joinSemi _ _ ?hmem]
  case hmem =>
    intro s hs
    rcases List.mem_cons.mp hs with rfl | hs2
    · intro hh
      simp only [String.data_append, List.mem_append] at hh
      rcases hh with (((((hh | hh) | hh) | hh) | hh) | hh)
      · exact absurd hh (by decide)
      · exact hu hh
      · exact absurd hh (by decide)
      · exact hg hh
      · exact absurd hh (by decide)
      · exact hport hh
    · rcases List.mem_append.mp hs2 with hs3 | hs3
      · exact hf1 s hs3
      · rcases List.mem_singleton.mp hs3 with rfl
        intro hh
        simp only [String.data_append, List.mem_append] at hh
        rcases hh with hh | hh
        · exact absurd hh (by decide)
        · exact hpw hh
  · have hhead : isPref "auth_pass=".data
        ("sip:" ++ i.user ++ "@" ++ i.gateway ++ ":" ++ toString i.port).data = false := rfl
    have hflags : List.countP (fun comp => isPref "auth_pass=".data comp)
        (i.flags.map String.data) = 0 := by
      rw [List.countP_eq_zero]
      intro a ha
      rcases List.mem_map.mp ha with ⟨f, hf, rfl⟩
      simp [hf2 f hf]
    rw [List.map_cons, List.countP_cons, hhead, List.map_append, List.countP_append, hflags]
    simp [List.countP_cons]
    rfl

/-- Witness for C5 at the sample identity. -/
theorem c5_sip_single_auth_pass_witness :
    (';' ∉ idEx.user.data ∧ (∀ f ∈ idEx.flags, ';' ∉ f.data)) ∧
    idEx.sipRun.2.flags = idEx.flags ∧ authPassComponents idEx.sip = 1 :=
  ⟨⟨by decide, by decide⟩,
   (c5_sip_single_auth_pass idEx (by decide) (by decide) (by decide) (by decide)
      (by decide) (by decide)).2.2⟩
